import Mathlib

/-!
Shallow embedding of `datapane/blocks/parameters.py`: the typed
parameter-definition and validation layer.  Python exceptions are embedded as
`Except String` (a `DPClientError` raised at construction time, a
`ValidationError`/`AssertionError` raised by a value validator); the message
string carries the human-readable text.  Machine floats appear in the source
only through the predicates `math.isinf` / `math.isnan` and the `float()`
conversion — no float arithmetic is performed — so Python floats are embedded
as an inductive with a rational `finite` case plus the three non-finite
values.
-/

namespace Datapane

/-- A Python float: the source only converts to float, tests `isinf`/`isnan`
and stringifies, so the finite case carries an exact rational. -/
inductive PyFloat where
  | finite (q : ℚ)
  | inf
  | ninf
  | nan
  deriving DecidableEq, Repr

/-- `Numeric = t.Union[float, int]` from the source. -/
inductive Numeric where
  | int (n : ℤ)
  | float (f : PyFloat)
  deriving DecidableEq, Repr

/-- Python `float(v)` applied to a `Numeric`. -/
def Numeric.toFloat : Numeric → PyFloat
  | .int n => .finite n
  | .float f => f

/-- `isinstance(v, float) and (math.isinf(v) or math.isnan(v))` from
`Range.__init__`: an `int` is never an instance of `float`. -/
def Numeric.badFloat : Numeric → Bool
  | .float .inf => true
  | .float .ninf => true
  | .float .nan => true
  | _ => false

/-- Textual form of a Python float as produced by `str`.  Only the integral
and non-finite cases are ever inspected by a theorem below; the remaining
finite case is rendered as a plain rational (Python's shortest-repr algorithm
is not decision-relevant anywhere in this development). -/
def PyFloat.pyStr : PyFloat → String
  | .inf => "inf"
  | .ninf => "-inf"
  | .nan => "nan"
  | .finite q => if q.den = 1 then toString q.num ++ ".0" else toString q

/-- The attribute values that flow into `mk_attribs` in the source: strings,
bools, ints and floats. -/
inductive PyVal where
  | str (s : String)
  | bool (b : Bool)
  | int (n : ℤ)
  | float (f : PyFloat)
  deriving DecidableEq, Repr

/-- Python `str` on an attribute value. -/
def PyVal.pyStr : PyVal → String
  | .str s => s
  | .bool true => "True"
  | .bool false => "False"
  | .int n => toString n
  | .float f => f.pyStr

/-- Four-digit zero-padded decimal, as in `date.isoformat`. -/
def pad4 (n : ℕ) : String :=
  let s := toString n
  if s.length ≥ 4 then s else String.mk (List.replicate (4 - s.length) '0') ++ s

/-- Two-digit zero-padded decimal. -/
def pad2 (n : ℕ) : String :=
  let s := toString n
  if s.length ≥ 2 then s else String.mk (List.replicate (2 - s.length) '0') ++ s

/-- Six-digit zero-padded decimal (microseconds). -/
def pad6 (n : ℕ) : String :=
  let s := toString n
  if s.length ≥ 6 then s else String.mk (List.replicate (6 - s.length) '0') ++ s

/-- A Python `datetime.date`. -/
structure DateV where
  year : ℕ
  month : ℕ
  day : ℕ
  deriving DecidableEq, Repr

/-- `date.isoformat()`: `YYYY-MM-DD`. -/
def DateV.isoformat (d : DateV) : String :=
  pad4 d.year ++ "-" ++ pad2 d.month ++ "-" ++ pad2 d.day

/-- A Python `datetime.time` (tz-naive, as constructed by callers here). -/
structure TimeV where
  hour : ℕ
  minute : ℕ
  second : ℕ
  microsecond : ℕ
  deriving DecidableEq, Repr

/-- `time.isoformat()`: `HH:MM:SS` with `.ffffff` appended when the
microsecond field is non-zero. -/
def TimeV.isoformat (t : TimeV) : String :=
  pad2 t.hour ++ ":" ++ pad2 t.minute ++ ":" ++ pad2 t.second ++
    (if t.microsecond = 0 then "" else "." ++ pad6 t.microsecond)

/-- A Python `datetime.datetime` (tz-naive). -/
structure DateTimeV where
  date : DateV
  time : TimeV
  deriving DecidableEq, Repr

/-- `datetime.isoformat()`: date part, `T`, time part. -/
def DateTimeV.isoformat (dt : DateTimeV) : String :=
  dt.date.isoformat ++ "T" ++ dt.time.isoformat

/-- Hexadecimal digit. -/
def hexDigit (n : ℕ) : Char :=
  if n < 10 then Char.ofNat ('0'.toNat + n) else Char.ofNat ('a'.toNat + (n - 10))

/-- Four-digit lowercase hex, as used by `json.dumps` unicode escapes. -/
def hex4 (n : ℕ) : String :=
  String.mk [hexDigit (n / 4096 % 16), hexDigit (n / 256 % 16),
             hexDigit (n / 16 % 16), hexDigit (n % 16)]

/-- `json.dumps` escaping of one character (default `ensure_ascii=True`):
quote and backslash get a backslash, the named control escapes are used,
other control characters and all non-ASCII code points ≤ 0xFFFF become
`\uXXXX` (astral code points use a surrogate pair). -/
def jsonEscapeChar (c : Char) : String :=
  if c = '"' then "\\\""
  else if c = '\\' then "\\\\"
  else if c = '\n' then "\\n"
  else if c = '\t' then "\\t"
  else if c = '\r' then "\\r"
  else if c = '\x08' then "\\b"
  else if c = '\x0c' then "\\f"
  else if c.toNat < 32 then "\\u" ++ hex4 c.toNat
  else if c.toNat < 127 then String.mk [c]
  else if c.toNat ≤ 0xFFFF then "\\u" ++ hex4 c.toNat
  else
    let v := c.toNat - 0x10000
    "\\u" ++ hex4 (0xD800 + v / 1024) ++ "\\u" ++ hex4 (0xDC00 + v % 1024)

/-- `json.dumps` of a single string. -/
def jsonStr (s : String) : String :=
  "\"" ++ String.join (s.data.map jsonEscapeChar) ++ "\""

/-- `json.dumps` of a list of strings: elements separated by `", "` inside
square brackets. -/
def jsonDumps (xs : List String) : String :=
  "[" ++ String.intercalate ", " (xs.map jsonStr) ++ "]"

/-!
## The shared base contract: `Parameter.__init__`, `mk_attribs`, `_to_xml`

`Parameter.__init__` validates `name` and `label`, stores them, and builds the
`attribs` dict `{name, label, required: not allow_empty, initial: processed}`
in that order.  The per-variant `_proc_initial` dispatch is embedded by having
each variant constructor pass the already-processed optional initial value.
-/

/-- The attribute dict built by `Parameter.__init__`: keys in insertion order,
values still carrying Python `None` as `Option.none`. -/
abbrev Attribs := List (String × Option PyVal)

/-- Whether a fallible computation succeeded (Python: no exception was
raised). -/
def isOkE : Except String α → Bool
  | .ok _ => true
  | .error _ => false

/-- The name/label checks at the top of `Parameter.__init__`:
`if not name: raise`, `if label == "": raise`.  Returns the error message the
`DPClientError` would carry, or `none` when both checks pass. -/
def Parameter.initErr (name : String) (label : Option String) : Option String :=
  if name = "" then some "A non empty name must be provided"
  else if label = some "" then some "label must be a non-empty string or None"
  else none

/-- The `attribs` dict assembled at the end of `Parameter.__init__`. -/
def Parameter.mkAttribsDict (name : String) (label : Option String)
    (initialAttr : Option PyVal) (allow_empty : Bool) : Attribs :=
  [("name", some (.str name)), ("label", label.map .str),
   ("required", some (.bool (!allow_empty))), ("initial", initialAttr)]

/-- `Parameter.__init__` as a fallible computation producing the `attribs`
dict; `initialAttr` is `_proc_initial(initial)` when `initial is not None`,
`none` otherwise (the processing is done by each variant's embedding). -/
def Parameter.init (name : String) (label : Option String)
    (initialAttr : Option PyVal) (allow_empty : Bool) : Except String Attribs :=
  match Parameter.initErr name label with
  | some e => .error e
  | none => .ok (Parameter.mkAttribsDict name label initialAttr allow_empty)

/-- Modelled from the spec: `mk_attribs` lives in
`datapane.common.viewxml_utils`, outside the excerpt.  The spec describes it
as the attribute-building/escaping utility (`build(tag, attributes)`); absent
(`None`) values are dropped and present ones serialized to text, with an
escape step whose decoding restores the text, so escaping is the identity at
this level of the model. -/
def mk_attribs (attribs : Attribs) : List (String × String) :=
  attribs.filterMap fun kv => kv.2.map fun v => (kv.1, v.pyStr)

/-- An XML element as produced by `lxml`'s `ElementMaker`: a tag plus
string-valued attributes. -/
structure Element where
  tag : String
  attrs : List (String × String)
  deriving DecidableEq, Repr

/-!
## MultiChoice

`MultiChoice.__init__` normalises `initial = initial or []` (identity on
lists), validates options and the initial list, calls the base constructor
(`_proc_initial` is `json.dumps`) and stores `options`.
-/

/-- The data carried by a constructed `MultiChoice` instance. -/
structure MultiChoiceP where
  name : String
  label : Option String
  initial : List String
  options : List String
  attribs : Attribs
  cacheable : Bool
  deriving DecidableEq, Repr

/-- `MultiChoice._check(xs, ys) = set(xs).issubset(ys)`: every element of
`xs` occurs in `ys`. -/
def MultiChoice.check (xs ys : List String) : Bool :=
  xs.all fun x => ys.contains x

/-- `MultiChoice.__init__`. -/
def MultiChoice.mk (name : String) (label : Option String)
    (initial : List String) (options : List String) (allow_empty : Bool) :
    Except String MultiChoiceP :=
  if options = [] then .error "At least one option must be provided"
  else if initial.any (fun d => !options.contains d) then
    .error "All items in default value must be present in the options"
  else if options.any (fun opt => opt = "") then
    .error "All options must be non-empty strings"
  else
    match Parameter.init name label (some (.str (jsonDumps initial))) allow_empty with
    | .error e => .error e
    | .ok attribs => .ok ⟨name, label, initial, options, attribs, true⟩

/-- The closure returned by `MultiChoice._validator`, with the captured
`self.options` made explicit: `assert self._check(xs, self.options)`,
then return `xs` unchanged. -/
def MultiChoice.validator (options : List String) (xs : List String) :
    Except String (List String) :=
  if MultiChoice.check xs options then .ok xs else .error "not in options"

/-- `MultiChoice._to_xml`: the base attribs plus a JSON-encoded `choices`. -/
def MultiChoiceP.toXml (p : MultiChoiceP) : Element :=
  ⟨"MultiChoice", mk_attribs (p.attribs ++ [("choices", some (.str (jsonDumps p.options)))])⟩

/-!
## Switch, TextBox, NumberBox

These three use the default `_proc_initial` (identity) and the default
validator.  `_check_instance` re-serialises to XML; in the embedding
`_to_xml` is a total function, so it is a no-op here.
-/

/-- A constructed `Switch` instance. -/
structure SwitchP where
  name : String
  label : Option String
  initial : Bool
  attribs : Attribs
  cacheable : Bool
  deriving DecidableEq, Repr

/-- `Switch.__init__`: `initial: bool = False` is never `None`, so the
processed initial attribute is always present. -/
def Switch.mk (name : String) (label : Option String) (initial : Bool) :
    Except String SwitchP :=
  match Parameter.init name label (some (.bool initial)) false with
  | .error e => .error e
  | .ok attribs => .ok ⟨name, label, initial, attribs, true⟩

/-- `Switch._to_xml` via the base `Parameter._to_xml`. -/
def SwitchP.toXml (p : SwitchP) : Element := ⟨"Switch", mk_attribs p.attribs⟩

/-- A constructed `TextBox` instance. -/
structure TextBoxP where
  name : String
  label : Option String
  initial : String
  attribs : Attribs
  cacheable : Bool
  deriving DecidableEq, Repr

/-- `TextBox.__init__`: `initial: str = ""` is never `None`. -/
def TextBox.mk (name : String) (label : Option String) (initial : String)
    (allow_empty : Bool) : Except String TextBoxP :=
  match Parameter.init name label (some (.str initial)) allow_empty with
  | .error e => .error e
  | .ok attribs => .ok ⟨name, label, initial, attribs, true⟩

/-- `TextBox._to_xml` via the base `Parameter._to_xml`. -/
def TextBoxP.toXml (p : TextBoxP) : Element := ⟨"TextBox", mk_attribs p.attribs⟩

/-- A constructed `NumberBox` instance. -/
structure NumberBoxP where
  name : String
  label : Option String
  initial : Numeric
  attribs : Attribs
  cacheable : Bool
  deriving DecidableEq, Repr

/-- Attribute value of a `Numeric`. -/
def Numeric.toVal : Numeric → PyVal
  | .int n => .int n
  | .float f => .float f

/-- `NumberBox.__init__`: `initial` is a required keyword argument, passed to
the base constructor unconverted. -/
def NumberBox.mk (name : String) (label : Option String) (initial : Numeric) :
    Except String NumberBoxP :=
  match Parameter.init name label (some initial.toVal) false with
  | .error e => .error e
  | .ok attribs => .ok ⟨name, label, initial, attribs, true⟩

/-- `NumberBox._to_xml` via the base `Parameter._to_xml`. -/
def NumberBoxP.toXml (p : NumberBoxP) : Element := ⟨"NumberBox", mk_attribs p.attribs⟩

/-!
## Range

`Range.__init__` first calls the base constructor with `float(initial)`, then
rejects any of `min`, `max`, `step` that is a float and infinite or NaN
(`step=None` passes the `isinstance` guard), then stores the converted
bounds.
-/

/-- A constructed `Range` instance. -/
structure RangeP where
  name : String
  label : Option String
  initial : PyFloat
  min : PyFloat
  max : PyFloat
  step : Option PyFloat
  attribs : Attribs
  cacheable : Bool
  deriving DecidableEq, Repr

/-- `Range.__init__`. -/
def Range.mk (name : String) (label : Option String) (initial mn mx : Numeric)
    (st : Option Numeric) : Except String RangeP :=
  match Parameter.init name label (some (.float initial.toFloat)) false with
  | .error e => .error e
  | .ok attribs =>
    if mn.badFloat || mx.badFloat || st.any Numeric.badFloat then
      .error "min/max/step must not be `inf` or `nan`"
    else
      .ok ⟨name, label, initial.toFloat, mn.toFloat, mx.toFloat,
           st.map Numeric.toFloat, attribs, true⟩

/-- `Range._to_xml`: `mk_attribs(**self.attribs, min=…, max=…, step=…)`. -/
def RangeP.toXml (p : RangeP) : Element :=
  ⟨"Range", mk_attribs (p.attribs ++
    [("min", some (.float p.min)), ("max", some (.float p.max)),
     ("step", p.step.map .float)])⟩

/-!
## Choice
-/

/-- A constructed `Choice` instance. -/
structure ChoiceP where
  name : String
  label : Option String
  options : List String
  initial : Option String
  attribs : Attribs
  cacheable : Bool
  deriving DecidableEq, Repr

/-- `Choice.__init__`: options non-empty, a present initial must be one of
the options, all options non-empty strings — checked in that order, before
the base constructor runs. -/
def Choice.mk (name : String) (label : Option String) (options : List String)
    (initial : Option String) : Except String ChoiceP :=
  if options = [] then .error "At least one option must be provided"
  else if initial.any (fun i => !options.contains i) then
    .error "Initial value must be present in the options"
  else if options.any (fun opt => opt = "") then
    .error "All options must be non-empty strings"
  else
    match Parameter.init name label (initial.map .str) false with
    | .error e => .error e
    | .ok attribs => .ok ⟨name, label, options, initial, attribs, true⟩

/-- The closure returned by `Choice._validator`, with the captured
`self.options` explicit: `assert x in self.options`, then return `x`. -/
def Choice.validator (options : List String) (x : String) : Except String String :=
  if options.contains x then .ok x else .error "not in options"

/-- `Choice._to_xml`: base attribs plus JSON-encoded `choices`. -/
def ChoiceP.toXml (p : ChoiceP) : Element :=
  ⟨"Choice", mk_attribs (p.attribs ++ [("choices", some (.str (jsonDumps p.options)))])⟩

/-!
## Tags, Date, Time, DateTime
-/

/-- A constructed `Tags` instance. -/
structure TagsP where
  name : String
  label : Option String
  initial : List String
  attribs : Attribs
  cacheable : Bool
  deriving DecidableEq, Repr

/-- `Tags.__init__`: passes `initial or []` (identity on lists) to the base;
`_proc_initial` is `json.dumps`. -/
def Tags.mk (name : String) (label : Option String) (initial : List String)
    (allow_empty : Bool) : Except String TagsP :=
  match Parameter.init name label (some (.str (jsonDumps initial))) allow_empty with
  | .error e => .error e
  | .ok attribs => .ok ⟨name, label, initial, attribs, true⟩

/-- `Tags._to_xml` via the base `Parameter._to_xml`. -/
def TagsP.toXml (p : TagsP) : Element := ⟨"Tags", mk_attribs p.attribs⟩

/-- A constructed `Date` instance. -/
structure DateP where
  name : String
  label : Option String
  initial : Option DateV
  attribs : Attribs
  cacheable : Bool
  deriving DecidableEq, Repr

/-- `Date.__init__`: `_proc_initial` is `x.isoformat()`. -/
def Date.mk (name : String) (label : Option String) (initial : Option DateV) :
    Except String DateP :=
  match Parameter.init name label (initial.map fun d => .str d.isoformat) false with
  | .error e => .error e
  | .ok attribs => .ok ⟨name, label, initial, attribs, true⟩

/-- `Date._to_xml` via the base `Parameter._to_xml`. -/
def DateP.toXml (p : DateP) : Element := ⟨"Date", mk_attribs p.attribs⟩

/-- A constructed `Time` instance. -/
structure TimeP where
  name : String
  label : Option String
  initial : Option TimeV
  attribs : Attribs
  cacheable : Bool
  deriving DecidableEq, Repr

/-- `Time.__init__`: `_proc_initial` is `x.isoformat()`. -/
def Time.mk (name : String) (label : Option String) (initial : Option TimeV) :
    Except String TimeP :=
  match Parameter.init name label (initial.map fun x => .str x.isoformat) false with
  | .error e => .error e
  | .ok attribs => .ok ⟨name, label, initial, attribs, true⟩

/-- `Time._to_xml` via the base `Parameter._to_xml`. -/
def TimeP.toXml (p : TimeP) : Element := ⟨"Time", mk_attribs p.attribs⟩

/-- A constructed `DateTime` instance. -/
structure DateTimeP where
  name : String
  label : Option String
  initial : Option DateTimeV
  attribs : Attribs
  cacheable : Bool
  deriving DecidableEq, Repr

/-- `DateTime.__init__`: `_proc_initial` is `x.isoformat()`. -/
def DateTime.mk (name : String) (label : Option String)
    (initial : Option DateTimeV) : Except String DateTimeP :=
  match Parameter.init name label (initial.map fun x => .str x.isoformat) false with
  | .error e => .error e
  | .ok attribs => .ok ⟨name, label, initial, attribs, true⟩

/-- `DateTime._to_xml` via the base `Parameter._to_xml`. -/
def DateTimeP.toXml (p : DateTimeP) : Element := ⟨"DateTime", mk_attribs p.attribs⟩

/-!
## B64Path and File

`B64Path.validate` feeds the submitted string through `base64.decode` into a
freshly named temporary file and returns its path.  `base64.decode` reads
line by line and calls `binascii.a2b_base64` on each line; the embedding
below follows CPython's `binascii.a2b_base64` in its default non-strict mode:
characters outside the alphabet are skipped, a `=` closes a quad once at
least two data characters of it have been seen, and leftover data characters
at the end raise `binascii.Error` (a subclass of `ValueError`).  The
filesystem is threaded through as explicit state.
-/

/-- Index of a character in the standard base64 alphabet. -/
def b64CharIndex (c : Char) : Option ℕ :=
  if 'A' ≤ c ∧ c ≤ 'Z' then some (c.toNat - 'A'.toNat)
  else if 'a' ≤ c ∧ c ≤ 'z' then some (c.toNat - 'a'.toNat + 26)
  else if '0' ≤ c ∧ c ≤ '9' then some (c.toNat - '0'.toNat + 52)
  else if c = '+' then some 62
  else if c = '/' then some 63
  else none

/-- The decoding loop of `binascii.a2b_base64` (non-strict mode): state is
the position inside the current quad, the bits left over from the previous
character, the count of consecutive padding characters, and the output bytes
in reverse order. -/
def a2bLoop : List Char → ℕ → ℕ → ℕ → List ℕ → Except String (List ℕ)
  | [], quadPos, _, _, out =>
      if quadPos = 0 then .ok out.reverse
      else if quadPos = 1 then
        .error "Invalid base64-encoded string: number of data characters cannot be 1 more than a multiple of 4"
      else .error "Incorrect padding"
  | c :: cs, quadPos, leftchar, pads, out =>
      if c = '=' then
        if quadPos ≥ 2 then
          if quadPos + (pads + 1) ≥ 4 then .ok out.reverse
          else a2bLoop cs quadPos leftchar (pads + 1) out
        else a2bLoop cs quadPos leftchar pads out
      else
        match b64CharIndex c with
        | none => a2bLoop cs quadPos leftchar pads out
        | some v =>
          match quadPos with
          | 0 => a2bLoop cs 1 v 0 out
          | 1 => a2bLoop cs 2 (v % 16) 0 ((leftchar * 4 + v / 16) :: out)
          | 2 => a2bLoop cs 3 (v % 4) 0 ((leftchar * 16 + v / 4) :: out)
          | _ => a2bLoop cs 0 0 0 ((leftchar * 64 + v) :: out)

/-- `binascii.a2b_base64` on one line. -/
def a2b_base64 (s : String) : Except String (List ℕ) :=
  a2bLoop s.data 0 0 0 []

/-- Split a character stream at newlines (the `readline` loop of
`base64.decode`). -/
def splitLines : List Char → List (List Char)
  | [] => [[]]
  | c :: cs =>
    if c = '\n' then [] :: splitLines cs
    else
      match splitLines cs with
      | [] => [[c]]
      | l :: ls => (c :: l) :: ls

/-- `base64.decode`: decode line by line, concatenating the output (the
newline itself is outside the alphabet, so splitting on it is faithful). -/
def b64decode (s : String) : Except String (List ℕ) :=
  (splitLines s.data).foldlM
    (fun acc line => (a2bLoop line 0 0 0 []).map (acc ++ ·)) []

/-- What a filesystem path designates. -/
inductive FSEntry where
  | regular (content : List ℕ)
  | directory
  | special
  deriving DecidableEq, Repr

/-- Explicit filesystem state: a path-to-entry map (absent means the path
does not exist) and a counter generating fresh temporary-file names. -/
structure FSState where
  entries : List (String × FSEntry)
  counter : ℕ
  deriving DecidableEq, Repr

/-- The fresh name handed out by `tempfile.NamedTemporaryFile` with
`prefix="dp-uploaded-"` and `delete=False`. -/
def tempName (n : ℕ) : String := "/tmp/dp-uploaded-" ++ toString n

/-- `Path.exists()`. -/
def FSState.pathExists (fs : FSState) (p : String) : Bool :=
  (fs.entries.lookup p).isSome

/-- `Path.is_file()`: the path designates a regular file. -/
def FSState.isFile (fs : FSState) (p : String) : Bool :=
  match fs.entries.lookup p with
  | some (.regular _) => true
  | _ => false

/-- `B64Path.validate`: decode the base64 payload into a freshly created
temporary file and return its path; a decode failure propagates as the
error (`binascii.Error ⊂ ValueError`, which the validation framework reports
as a validation error). -/
def B64Path.validate (v : String) (fs : FSState) :
    Except String (String × FSState) :=
  match b64decode v with
  | .error e => .error e
  | .ok bytes =>
    let p := tempName fs.counter
    .ok (p, ⟨(p, .regular bytes) :: fs.entries, fs.counter + 1⟩)

/-- A constructed `File` instance. -/
structure FileP where
  name : String
  label : Option String
  initial : Option String
  attribs : Attribs
  cacheable : Bool
  deriving DecidableEq, Repr

/-- `File.__init__`: class attribute `cacheable = False`; the constructor
takes no argument that could change it. -/
def File.mk (name : String) (label : Option String) (initial : Option String)
    (allow_empty : Bool) : Except String FileP :=
  match Parameter.init name label (initial.map .str) allow_empty with
  | .error e => .error e
  | .ok attribs => .ok ⟨name, label, initial, attribs, false⟩

/-- The closure returned by `File._validator`:
`assert x.is_file() and x.exists()`, then return `Path(x)` (the same path
value). -/
def File.validator (fs : FSState) (x : String) : Except String String :=
  if fs.isFile x && fs.pathExists x then .ok x else .error "AssertionError"

/-- `File._to_xml` via the base `Parameter._to_xml`. -/
def FileP.toXml (p : FileP) : Element := ⟨"File", mk_attribs p.attribs⟩

/-- The value pipeline for a submitted File payload, as the spec describes it:
the `B64Path` decoding validator runs first, then the field validator checks
the materialised path. -/
def File.validateValue (v : String) (fs : FSState) :
    Except String (String × FSState) :=
  match B64Path.validate v fs with
  | .error e => .error e
  | .ok (p, fs2) =>
    match File.validator fs2 p with
    | .error e => .error e
    | .ok p2 => .ok (p2, fs2)

/-!
## Shared lemmas about the base constructor
-/

theorem Parameter.init_ok (n : String) (lbl : Option String) (i : Option PyVal)
    (a : Bool) (hn : n ≠ "") (hl : lbl ≠ some "") :
    Parameter.init n lbl i a = .ok (Parameter.mkAttribsDict n lbl i a) := by
  simp [Parameter.init, Parameter.initErr, hn, hl]

theorem Parameter.init_isOk_iff (n : String) (lbl : Option String)
    (i : Option PyVal) (a : Bool) :
    isOkE (Parameter.init n lbl i a) = true ↔ (n ≠ "" ∧ lbl ≠ some "") := by
  by_cases hn : n = "" <;> by_cases hl : lbl = some "" <;>
    simp [Parameter.init, Parameter.initErr, hn, hl, isOkE]

theorem Parameter.init_ok_names {n : String} {lbl : Option String}
    {i : Option PyVal} {a : Bool} {attribs : Attribs}
    (h : Parameter.init n lbl i a = .ok attribs) : n ≠ "" ∧ lbl ≠ some "" := by
  by_cases hn : n = ""
  · simp [Parameter.init, Parameter.initErr, hn] at h
  by_cases hl : lbl = some ""
  · simp [Parameter.init, Parameter.initErr, hn, hl] at h
  exact ⟨hn, hl⟩

theorem lookup_initial (n : String) (lbl : Option String) (v : PyVal) (a : Bool) :
    (mk_attribs (Parameter.mkAttribsDict n lbl (some v) a)).lookup "initial"
      = some v.pyStr := by
  cases lbl <;> rfl

theorem lookup_initial_append (n : String) (lbl : Option String) (v : PyVal)
    (a : Bool) (extra : Attribs) :
    (mk_attribs (Parameter.mkAttribsDict n lbl (some v) a ++ extra)).lookup "initial"
      = some v.pyStr := by
  cases lbl <;> rfl

theorem switch_mk_isOk_iff (n : String) (lbl : Option String) (i : Bool) :
    isOkE (Switch.mk n lbl i) = true ↔ (n ≠ "" ∧ lbl ≠ some "") := by
  rw [← Parameter.init_isOk_iff n lbl (some (.bool i)) false]
  cases h : Parameter.init n lbl (some (.bool i)) false <;>
    simp [Switch.mk, h, isOkE]

theorem textBox_mk_isOk_iff (n : String) (lbl : Option String) (i : String)
    (a : Bool) :
    isOkE (TextBox.mk n lbl i a) = true ↔ (n ≠ "" ∧ lbl ≠ some "") := by
  rw [← Parameter.init_isOk_iff n lbl (some (.str i)) a]
  cases h : Parameter.init n lbl (some (.str i)) a <;>
    simp [TextBox.mk, h, isOkE]

theorem numberBox_mk_isOk_iff (n : String) (lbl : Option String) (i : Numeric) :
    isOkE (NumberBox.mk n lbl i) = true ↔ (n ≠ "" ∧ lbl ≠ some "") := by
  rw [← Parameter.init_isOk_iff n lbl (some i.toVal) false]
  cases h : Parameter.init n lbl (some i.toVal) false <;>
    simp [NumberBox.mk, h, isOkE]

theorem tags_mk_isOk_iff (n : String) (lbl : Option String) (i : List String)
    (a : Bool) :
    isOkE (Tags.mk n lbl i a) = true ↔ (n ≠ "" ∧ lbl ≠ some "") := by
  rw [← Parameter.init_isOk_iff n lbl (some (.str (jsonDumps i))) a]
  cases h : Parameter.init n lbl (some (.str (jsonDumps i))) a <;>
    simp [Tags.mk, h, isOkE]

theorem date_mk_isOk_iff (n : String) (lbl : Option String) (i : Option DateV) :
    isOkE (Date.mk n lbl i) = true ↔ (n ≠ "" ∧ lbl ≠ some "") := by
  rw [← Parameter.init_isOk_iff n lbl (i.map fun d => .str d.isoformat) false]
  cases h : Parameter.init n lbl (i.map fun d => .str d.isoformat) false <;>
    simp [Date.mk, h, isOkE]

theorem time_mk_isOk_iff (n : String) (lbl : Option String) (i : Option TimeV) :
    isOkE (Time.mk n lbl i) = true ↔ (n ≠ "" ∧ lbl ≠ some "") := by
  rw [← Parameter.init_isOk_iff n lbl (i.map fun x => .str x.isoformat) false]
  cases h : Parameter.init n lbl (i.map fun x => .str x.isoformat) false <;>
    simp [Time.mk, h, isOkE]

theorem dateTime_mk_isOk_iff (n : String) (lbl : Option String)
    (i : Option DateTimeV) :
    isOkE (DateTime.mk n lbl i) = true ↔ (n ≠ "" ∧ lbl ≠ some "") := by
  rw [← Parameter.init_isOk_iff n lbl (i.map fun x => .str x.isoformat) false]
  cases h : Parameter.init n lbl (i.map fun x => .str x.isoformat) false <;>
    simp [DateTime.mk, h, isOkE]

theorem file_mk_isOk_iff (n : String) (lbl : Option String) (i : Option String)
    (a : Bool) :
    isOkE (File.mk n lbl i a) = true ↔ (n ≠ "" ∧ lbl ≠ some "") := by
  rw [← Parameter.init_isOk_iff n lbl (i.map .str) a]
  cases h : Parameter.init n lbl (i.map .str) a <;>
    simp [File.mk, h, isOkE]

theorem range_mk_isOk_iff (n : String) (lbl : Option String) (i mn mx : Numeric)
    (st : Option Numeric) :
    isOkE (Range.mk n lbl i mn mx st) = true ↔
      (n ≠ "" ∧ lbl ≠ some "" ∧
       (mn.badFloat || mx.badFloat || st.any Numeric.badFloat) = false) := by
  cases h : Parameter.init n lbl (some (.float i.toFloat)) false with
  | error e =>
    refine iff_of_false (by simp [Range.mk, h, isOkE]) ?_
    rintro ⟨hn, hl, -⟩
    rw [Parameter.init_ok n lbl _ false hn hl] at h
    cases h
  | ok attribs =>
    have hnl := Parameter.init_ok_names h
    by_cases hb : (mn.badFloat || mx.badFloat || st.any Numeric.badFloat) = true
    · refine iff_of_false (by simp [Range.mk, h, hb, isOkE]) ?_
      rintro ⟨-, -, hf⟩
      rw [hf] at hb
      cases hb
    · have hb2 : (mn.badFloat || mx.badFloat || st.any Numeric.badFloat) = false := by
        simpa using hb
      exact iff_of_true (by simp [Range.mk, h, hb2, isOkE]) ⟨hnl.1, hnl.2, hb2⟩

theorem choice_mk_isOk_iff (n : String) (lbl : Option String)
    (opts : List String) (init : Option String) :
    isOkE (Choice.mk n lbl opts init) = true ↔
      (opts ≠ [] ∧ (∀ i, init = some i → i ∈ opts) ∧ (∀ o ∈ opts, o ≠ "") ∧
       n ≠ "" ∧ lbl ≠ some "") := by
  by_cases h1 : opts = []
  · simp [Choice.mk, h1, isOkE]
  · by_cases h2 : init.any (fun i => !opts.contains i) = true
    · rw [Choice.mk, if_neg h1, if_pos h2]
      refine iff_of_false (by simp [isOkE]) ?_
      rintro ⟨-, hmem, -, -, -⟩
      rcases init with _ | i
      · simp [Option.any] at h2
      · have hc : opts.contains i = false := by
          simpa [Option.any] using h2
        have hc2 : opts.contains i = true := List.elem_iff.mpr (hmem i rfl)
        rw [hc] at hc2
        cases hc2
    · by_cases h3 : opts.any (fun o => o = "") = true
      · rw [Choice.mk, if_neg h1, if_neg h2, if_pos h3]
        refine iff_of_false (by simp [isOkE]) ?_
        rintro ⟨-, -, hne, -, -⟩
        simp only [List.any_eq_true, decide_eq_true_eq] at h3
        rcases h3 with ⟨o, ho, ho2⟩
        exact hne o ho ho2
      · rw [Choice.mk, if_neg h1, if_neg h2, if_neg h3]
        have hmem : ∀ i, init = some i → i ∈ opts := by
          intro i hi
          subst hi
          have hc : opts.contains i = true := by
            cases hcc : opts.contains i
            · exact absurd (show (Option.any (fun x => !opts.contains x) (some i)) = true by
                simp only [Option.any, Bool.not_eq_true']
                exact hcc) h2
            · rfl
          exact List.elem_iff.mp hc
        have hne : ∀ o ∈ opts, o ≠ "" := by
          intro o ho he
          exact h3 (List.any_eq_true.mpr ⟨o, ho, by simp [he]⟩)
        cases h : Parameter.init n lbl (init.map .str) false with
        | error e =>
          refine iff_of_false (by simp [isOkE]) ?_
          rintro ⟨-, -, -, hn, hl⟩
          rw [Parameter.init_ok n lbl _ false hn hl] at h
          cases h
        | ok attribs =>
          have hnl := Parameter.init_ok_names h
          exact iff_of_true (by simp [isOkE]) ⟨h1, hmem, hne, hnl.1, hnl.2⟩

theorem multiChoice_mk_isOk_iff (n : String) (lbl : Option String)
    (i : List String) (opts : List String) (a : Bool) :
    isOkE (MultiChoice.mk n lbl i opts a) = true ↔
      (opts ≠ [] ∧ (∀ x ∈ i, x ∈ opts) ∧ (∀ o ∈ opts, o ≠ "") ∧
       n ≠ "" ∧ lbl ≠ some "") := by
  by_cases h1 : opts = []
  · simp [MultiChoice.mk, h1, isOkE]
  · by_cases h2 : i.any (fun d => !opts.contains d) = true
    · rw [MultiChoice.mk, if_neg h1, if_pos h2]
      refine iff_of_false (by simp [isOkE]) ?_
      rintro ⟨-, hmem, -, -, -⟩
      simp only [List.any_eq_true, Bool.not_eq_true'] at h2
      rcases h2 with ⟨x, hx, hx2⟩
      have hc2 : opts.contains x = true := List.elem_iff.mpr (hmem x hx)
      rw [hx2] at hc2
      cases hc2
    · by_cases h3 : opts.any (fun o => o = "") = true
      · rw [MultiChoice.mk, if_neg h1, if_neg h2, if_pos h3]
        refine iff_of_false (by simp [isOkE]) ?_
        rintro ⟨-, -, hne, -, -⟩
        simp only [List.any_eq_true, decide_eq_true_eq] at h3
        rcases h3 with ⟨o, ho, ho2⟩
        exact hne o ho ho2
      · rw [MultiChoice.mk, if_neg h1, if_neg h2, if_neg h3]
        have hmem : ∀ x ∈ i, x ∈ opts := by
          intro x hx
          have hc : opts.contains x = true := by
            cases hcc : opts.contains x
            · refine absurd (List.any_eq_true.mpr ⟨x, hx, ?_⟩) h2
              simp only [Bool.not_eq_true']
              exact hcc
            · rfl
          exact List.elem_iff.mp hc
        have hne : ∀ o ∈ opts, o ≠ "" := by
          intro o ho he
          exact h3 (List.any_eq_true.mpr ⟨o, ho, by simp [he]⟩)
        cases h : Parameter.init n lbl (some (.str (jsonDumps i))) a with
        | error e =>
          refine iff_of_false (by simp [isOkE]) ?_
          rintro ⟨-, -, -, hn, hl⟩
          rw [Parameter.init_ok n lbl _ a hn hl] at h
          cases h
        | ok attribs =>
          have hnl := Parameter.init_ok_names h
          exact iff_of_true (by simp [isOkE]) ⟨h1, hmem, hne, hnl.1, hnl.2⟩

theorem Parameter.init_ok_eq {n : String} {lbl : Option String}
    {i : Option PyVal} {a : Bool} {attribs : Attribs}
    (h : Parameter.init n lbl i a = .ok attribs) :
    attribs = Parameter.mkAttribsDict n lbl i a := by
  unfold Parameter.init at h
  cases hE : Parameter.initErr n lbl <;> rw [hE] at h
  · cases h
    rfl
  · cases h

theorem not_isOk_of_iff {b : Bool} {P : Prop} (h : b = true ↔ P) (hp : ¬P) :
    b = false := by
  cases hb : b
  · rfl
  · exact absurd (h.mp hb) hp

theorem MultiChoice.check_iff (xs ys : List String) :
    MultiChoice.check xs ys = true ↔ ∀ x ∈ xs, x ∈ ys := by
  unfold MultiChoice.check
  rw [List.all_eq_true]
  constructor
  · intro h x hx
    exact List.elem_iff.mp (h x hx)
  · intro h x hx
    exact List.elem_iff.mpr (h x hx)

theorem MultiChoice.validator_ok_iff (options xs : List String) :
    MultiChoice.validator options xs = .ok xs ↔ MultiChoice.check xs options = true := by
  unfold MultiChoice.validator
  by_cases h : MultiChoice.check xs options = true <;> simp [h]

/-!
## Claims
-/

/-- **C1** (counterexample): the claim says the MultiChoice value validator
rejects the empty list when the field was built with `allow_empty=False`.
On the code it does not: with `options=["a","b","c"]` and
`allow_empty=False` the construction succeeds, and the validator accepts
`[]` (the empty set is a subset of every option set; `allow_empty` is never
consulted by `_validator`). -/
theorem C1_counterexample :
    isOkE (MultiChoice.mk "f" none [] ["a", "b", "c"] false) = true ∧
    MultiChoice.validator ["a", "b", "c"] [] = .ok [] :=
  ⟨rfl, rfl⟩

/-- **C1** (amended): for every MultiChoice field, the value validator
accepts a submitted list exactly when its element set is a subset of the
field's options — the empty list included, whatever `allow_empty` was:
with `options=["a","b","c"]`, `allow_empty=False`, it accepts `["a"]`,
`["a","b","c"]` and `[]`, and rejects `["a","d"]`. -/
theorem C1_amended_subset_including_empty :
    (∀ options xs, MultiChoice.validator options xs = .ok xs ↔
        ∀ x ∈ xs, x ∈ options) ∧
    (isOkE (MultiChoice.mk "f" none [] ["a", "b", "c"] false) = true ∧
     MultiChoice.validator ["a", "b", "c"] ["a"] = .ok ["a"] ∧
     MultiChoice.validator ["a", "b", "c"] ["a", "b", "c"] = .ok ["a", "b", "c"] ∧
     isOkE (MultiChoice.validator ["a", "b", "c"] ["a", "d"]) = false ∧
     MultiChoice.validator ["a", "b", "c"] [] = .ok []) := by
  constructor
  · intro options xs
    rw [MultiChoice.validator_ok_iff, MultiChoice.check_iff]
  · exact ⟨rfl, rfl, rfl, rfl, rfl⟩

/-- **C1** witness: the subset characterisation applied to `["b"]` over
options `["a","b","c"]`. -/
theorem C1_witness :
    MultiChoice.validator ["a", "b", "c"] ["b"] = .ok ["b"] :=
  (C1_amended_subset_including_empty.1 ["a", "b", "c"] ["b"]).mpr (by decide)

/-- **C9**: the MultiChoice validator's verdict depends only on the set of
submitted elements — it accepts exactly the lists whose elements all lie in
the options, so order and duplicates are irrelevant; with
`options=["a","b"]` it accepts `["a","a"]` and `["b","a"]`. -/
theorem C9_multichoice_set_comparison :
    (∀ options xs, isOkE (MultiChoice.validator options xs) = true ↔
        ∀ x ∈ xs, x ∈ options) ∧
    (∀ options xs ys, (∀ x, x ∈ xs ↔ x ∈ ys) →
        isOkE (MultiChoice.validator options xs)
          = isOkE (MultiChoice.validator options ys)) ∧
    (isOkE (MultiChoice.mk "f" none [] ["a", "b"] false) = true ∧
     MultiChoice.validator ["a", "b"] ["a", "a"] = .ok ["a", "a"] ∧
     MultiChoice.validator ["a", "b"] ["b", "a"] = .ok ["b", "a"]) := by
  refine ⟨?_, ?_, rfl, rfl, rfl⟩
  · intro options xs
    rw [← MultiChoice.check_iff]
    unfold MultiChoice.validator
    by_cases h : MultiChoice.check xs options = true <;> simp [h, isOkE]
  · intro options xs ys hext
    have hch : MultiChoice.check xs options = MultiChoice.check ys options := by
      rw [Bool.eq_iff_iff, MultiChoice.check_iff, MultiChoice.check_iff]
      constructor
      · intro h x hx
        exact h x ((hext x).mpr hx)
      · intro h x hx
        exact h x ((hext x).mp hx)
    unfold MultiChoice.validator
    rw [hch]
    by_cases h : MultiChoice.check ys options = true <;> simp [h, isOkE]

/-- **C9** witness: the order/duplicate-independence part applied to
`["a","a"]` versus `["a"]` over options `["a","b"]`. -/
theorem C9_witness :
    isOkE (MultiChoice.validator ["a", "b"] ["a", "a"])
      = isOkE (MultiChoice.validator ["a", "b"] ["a"]) :=
  C9_multichoice_set_comparison.2.1 ["a", "b"] ["a", "a"] ["a"]
    (by intro x; simp)

/-- **C3**: for every variant, construction with an empty `name` raises a
`DPClientError`; construction with `label = ""` raises; construction with
`label` absent (`None`) succeeds when the remaining arguments are valid
(non-empty name, and the variant's own option/bound rules satisfied). -/
theorem C3_name_label_rules :
    ((∀ lbl i, isOkE (Switch.mk "" lbl i) = false) ∧
     (∀ lbl i a, isOkE (TextBox.mk "" lbl i a) = false) ∧
     (∀ lbl i, isOkE (NumberBox.mk "" lbl i) = false) ∧
     (∀ lbl i mn mx st, isOkE (Range.mk "" lbl i mn mx st) = false) ∧
     (∀ lbl opts init, isOkE (Choice.mk "" lbl opts init) = false) ∧
     (∀ lbl i opts a, isOkE (MultiChoice.mk "" lbl i opts a) = false) ∧
     (∀ lbl i a, isOkE (Tags.mk "" lbl i a) = false) ∧
     (∀ lbl i, isOkE (Date.mk "" lbl i) = false) ∧
     (∀ lbl i, isOkE (Time.mk "" lbl i) = false) ∧
     (∀ lbl i, isOkE (DateTime.mk "" lbl i) = false) ∧
     (∀ lbl i a, isOkE (File.mk "" lbl i a) = false)) ∧
    ((∀ n i, isOkE (Switch.mk n (some "") i) = false) ∧
     (∀ n i a, isOkE (TextBox.mk n (some "") i a) = false) ∧
     (∀ n i, isOkE (NumberBox.mk n (some "") i) = false) ∧
     (∀ n i mn mx st, isOkE (Range.mk n (some "") i mn mx st) = false) ∧
     (∀ n opts init, isOkE (Choice.mk n (some "") opts init) = false) ∧
     (∀ n i opts a, isOkE (MultiChoice.mk n (some "") i opts a) = false) ∧
     (∀ n i a, isOkE (Tags.mk n (some "") i a) = false) ∧
     (∀ n i, isOkE (Date.mk n (some "") i) = false) ∧
     (∀ n i, isOkE (Time.mk n (some "") i) = false) ∧
     (∀ n i, isOkE (DateTime.mk n (some "") i) = false) ∧
     (∀ n i a, isOkE (File.mk n (some "") i a) = false)) ∧
    ((∀ n i, n ≠ "" → isOkE (Switch.mk n none i) = true) ∧
     (∀ n i a, n ≠ "" → isOkE (TextBox.mk n none i a) = true) ∧
     (∀ n i, n ≠ "" → isOkE (NumberBox.mk n none i) = true) ∧
     (∀ n i mn mx st, n ≠ "" →
        (mn.badFloat || mx.badFloat || st.any Numeric.badFloat) = false →
        isOkE (Range.mk n none i mn mx st) = true) ∧
     (∀ n opts init, n ≠ "" → opts ≠ [] → (∀ i, init = some i → i ∈ opts) →
        (∀ o ∈ opts, o ≠ "") → isOkE (Choice.mk n none opts init) = true) ∧
     (∀ n i opts a, n ≠ "" → opts ≠ [] → (∀ x ∈ i, x ∈ opts) →
        (∀ o ∈ opts, o ≠ "") → isOkE (MultiChoice.mk n none i opts a) = true) ∧
     (∀ n i a, n ≠ "" → isOkE (Tags.mk n none i a) = true) ∧
     (∀ n i, n ≠ "" → isOkE (Date.mk n none i) = true) ∧
     (∀ n i, n ≠ "" → isOkE (Time.mk n none i) = true) ∧
     (∀ n i, n ≠ "" → isOkE (DateTime.mk n none i) = true) ∧
     (∀ n i a, n ≠ "" → isOkE (File.mk n none i a) = true)) := by
  refine ⟨⟨?_, ?_, ?_, ?_, ?_, ?_, ?_, ?_, ?_, ?_, ?_⟩,
          ⟨?_, ?_, ?_, ?_, ?_, ?_, ?_, ?_, ?_, ?_, ?_⟩,
          ⟨?_, ?_, ?_, ?_, ?_, ?_, ?_, ?_, ?_, ?_, ?_⟩⟩
  · exact fun lbl i => not_isOk_of_iff (switch_mk_isOk_iff "" lbl i) (by simp)
  · exact fun lbl i a => not_isOk_of_iff (textBox_mk_isOk_iff "" lbl i a) (by simp)
  · exact fun lbl i => not_isOk_of_iff (numberBox_mk_isOk_iff "" lbl i) (by simp)
  · exact fun lbl i mn mx st =>
      not_isOk_of_iff (range_mk_isOk_iff "" lbl i mn mx st) (by simp)
  · exact fun lbl opts init =>
      not_isOk_of_iff (choice_mk_isOk_iff "" lbl opts init) (by simp)
  · exact fun lbl i opts a =>
      not_isOk_of_iff (multiChoice_mk_isOk_iff "" lbl i opts a) (by simp)
  · exact fun lbl i a => not_isOk_of_iff (tags_mk_isOk_iff "" lbl i a) (by simp)
  · exact fun lbl i => not_isOk_of_iff (date_mk_isOk_iff "" lbl i) (by simp)
  · exact fun lbl i => not_isOk_of_iff (time_mk_isOk_iff "" lbl i) (by simp)
  · exact fun lbl i => not_isOk_of_iff (dateTime_mk_isOk_iff "" lbl i) (by simp)
  · exact fun lbl i a => not_isOk_of_iff (file_mk_isOk_iff "" lbl i a) (by simp)
  · exact fun n i => not_isOk_of_iff (switch_mk_isOk_iff n (some "") i) (by simp)
  · exact fun n i a =>
      not_isOk_of_iff (textBox_mk_isOk_iff n (some "") i a) (by simp)
  · exact fun n i => not_isOk_of_iff (numberBox_mk_isOk_iff n (some "") i) (by simp)
  · exact fun n i mn mx st =>
      not_isOk_of_iff (range_mk_isOk_iff n (some "") i mn mx st) (by simp)
  · exact fun n opts init =>
      not_isOk_of_iff (choice_mk_isOk_iff n (some "") opts init) (by simp)
  · exact fun n i opts a =>
      not_isOk_of_iff (multiChoice_mk_isOk_iff n (some "") i opts a) (by simp)
  · exact fun n i a => not_isOk_of_iff (tags_mk_isOk_iff n (some "") i a) (by simp)
  · exact fun n i => not_isOk_of_iff (date_mk_isOk_iff n (some "") i) (by simp)
  · exact fun n i => not_isOk_of_iff (time_mk_isOk_iff n (some "") i) (by simp)
  · exact fun n i => not_isOk_of_iff (dateTime_mk_isOk_iff n (some "") i) (by simp)
  · exact fun n i a => not_isOk_of_iff (file_mk_isOk_iff n (some "") i a) (by simp)
  · exact fun n i hn => (switch_mk_isOk_iff n none i).mpr ⟨hn, by simp⟩
  · exact fun n i a hn => (textBox_mk_isOk_iff n none i a).mpr ⟨hn, by simp⟩
  · exact fun n i hn => (numberBox_mk_isOk_iff n none i).mpr ⟨hn, by simp⟩
  · exact fun n i mn mx st hn hb =>
      (range_mk_isOk_iff n none i mn mx st).mpr ⟨hn, by simp, hb⟩
  · exact fun n opts init hn h1 h2 h3 =>
      (choice_mk_isOk_iff n none opts init).mpr ⟨h1, h2, h3, hn, by simp⟩
  · exact fun n i opts a hn h1 h2 h3 =>
      (multiChoice_mk_isOk_iff n none i opts a).mpr ⟨h1, h2, h3, hn, by simp⟩
  · exact fun n i a hn => (tags_mk_isOk_iff n none i a).mpr ⟨hn, by simp⟩
  · exact fun n i hn => (date_mk_isOk_iff n none i).mpr ⟨hn, by simp⟩
  · exact fun n i hn => (time_mk_isOk_iff n none i).mpr ⟨hn, by simp⟩
  · exact fun n i hn => (dateTime_mk_isOk_iff n none i).mpr ⟨hn, by simp⟩
  · exact fun n i a hn => (file_mk_isOk_iff n none i a).mpr ⟨hn, by simp⟩

/-- **C3** witness: the label-absent success branch of every variant at a
concrete valid input. -/
theorem C3_witness :
    isOkE (Switch.mk "s" none false) = true ∧
    isOkE (TextBox.mk "t" none "" false) = true ∧
    isOkE (NumberBox.mk "n" none (.int 3)) = true ∧
    isOkE (Range.mk "r" none (.int 5) (.int 0) (.int 10) (some (.int 1))) = true ∧
    isOkE (Choice.mk "c" none ["a", "b"] (some "a")) = true ∧
    isOkE (MultiChoice.mk "m" none ["a"] ["a", "b"] false) = true ∧
    isOkE (Tags.mk "g" none ["x"] false) = true ∧
    isOkE (Date.mk "d" none (some ⟨2023, 5, 7⟩)) = true ∧
    isOkE (Time.mk "h" none (some ⟨9, 5, 0, 0⟩)) = true ∧
    isOkE (DateTime.mk "e" none (some ⟨⟨2023, 5, 7⟩, ⟨9, 5, 0, 0⟩⟩)) = true ∧
    isOkE (File.mk "u" none none false) = true :=
  ⟨C3_name_label_rules.2.2.1 "s" false (by decide),
   C3_name_label_rules.2.2.2.1 "t" "" false (by decide),
   C3_name_label_rules.2.2.2.2.1 "n" (.int 3) (by decide),
   C3_name_label_rules.2.2.2.2.2.1 "r" (.int 5) (.int 0) (.int 10)
     (some (.int 1)) (by decide) (by decide),
   C3_name_label_rules.2.2.2.2.2.2.1 "c" ["a", "b"] (some "a") (by decide)
     (by decide) (by decide) (by decide),
   C3_name_label_rules.2.2.2.2.2.2.2.1 "m" ["a"] ["a", "b"] false (by decide)
     (by decide) (by decide) (by decide),
   C3_name_label_rules.2.2.2.2.2.2.2.2.1 "g" ["x"] false (by decide),
   C3_name_label_rules.2.2.2.2.2.2.2.2.2.1 "d" (some ⟨2023, 5, 7⟩) (by decide),
   C3_name_label_rules.2.2.2.2.2.2.2.2.2.2.1 "h" (some ⟨9, 5, 0, 0⟩) (by decide),
   C3_name_label_rules.2.2.2.2.2.2.2.2.2.2.2.1 "e"
     (some ⟨⟨2023, 5, 7⟩, ⟨9, 5, 0, 0⟩⟩) (by decide),
   C3_name_label_rules.2.2.2.2.2.2.2.2.2.2.2.2 "u" none false (by decide)⟩

/-- **C5**: constructing a `Range` fails with a `DPClientError` whenever any
of `min`, `max`, `step` is an infinite or NaN float, and constructing with
`min=0, max=10, step=1, initial=5` succeeds. -/
theorem C5_range_finiteness :
    (∀ n lbl i mn mx st,
        (mn.badFloat || mx.badFloat || st.any Numeric.badFloat) = true →
        isOkE (Range.mk n lbl i mn mx st) = false) ∧
    isOkE (Range.mk "r" none (.int 5) (.int 0) (.int 10) (some (.int 1))) = true := by
  constructor
  · intro n lbl i mn mx st h
    refine not_isOk_of_iff (range_mk_isOk_iff n lbl i mn mx st) ?_
    rintro ⟨-, -, hf⟩
    rw [hf] at h
    cases h
  · rfl

/-- **C5** witness: the rejection branch applied to `min = nan` (and then to
`max = inf` and `step = inf`). -/
theorem C5_witness :
    isOkE (Range.mk "r" none (.int 5) (.float .nan) (.int 10) (some (.int 1))) = false ∧
    isOkE (Range.mk "r" none (.int 5) (.int 0) (.float .inf) (some (.int 1))) = false ∧
    isOkE (Range.mk "r" none (.int 5) (.int 0) (.int 10) (some (.float .inf))) = false :=
  ⟨C5_range_finiteness.1 "r" none (.int 5) (.float .nan) (.int 10)
     (some (.int 1)) (by decide),
   C5_range_finiteness.1 "r" none (.int 5) (.int 0) (.float .inf)
     (some (.int 1)) (by decide),
   C5_range_finiteness.1 "r" none (.int 5) (.int 0) (.int 10)
     (some (.float .inf)) (by decide)⟩

/-- **C10**: the finiteness check of `Range.__init__` inspects only `min`,
`max` and `step`: a `Range` whose `initial` is an infinite or NaN float is
still constructed without error as long as `min`, `max` and `step` pass the
check (and name/label are valid). -/
theorem C10_range_initial_unchecked :
    ∀ n lbl i mn mx st, n ≠ "" → lbl ≠ some "" → Numeric.badFloat i = true →
      (mn.badFloat || mx.badFloat || st.any Numeric.badFloat) = false →
      isOkE (Range.mk n lbl i mn mx st) = true := by
  intro n lbl i mn mx st hn hl _ hb
  exact (range_mk_isOk_iff n lbl i mn mx st).mpr ⟨hn, hl, hb⟩

/-- **C10** witness: `initial = nan` and `initial = inf` with finite bounds
construct successfully. -/
theorem C10_witness :
    isOkE (Range.mk "r" none (.float .nan) (.int 0) (.int 10) (some (.int 1))) = true ∧
    isOkE (Range.mk "r" none (.float .inf) (.int 0) (.int 10) none) = true :=
  ⟨C10_range_initial_unchecked "r" none (.float .nan) (.int 0) (.int 10)
     (some (.int 1)) (by decide) (by decide) (by decide) (by decide),
   C10_range_initial_unchecked "r" none (.float .inf) (.int 0) (.int 10)
     none (by decide) (by decide) (by decide) (by decide)⟩

/-- **C6**: `Choice` construction fails with a `DPClientError` when the
options are empty, when an option is the empty string, or when a present
initial value is not among the options; `options=["a","b"]`, `initial="a"`
succeeds while `initial="c"` fails. -/
theorem C6_choice_construction :
    (∀ n lbl init, isOkE (Choice.mk n lbl [] init) = false) ∧
    (∀ n lbl opts init, "" ∈ opts → isOkE (Choice.mk n lbl opts init) = false) ∧
    (∀ n lbl opts i, i ∉ opts → isOkE (Choice.mk n lbl opts (some i)) = false) ∧
    isOkE (Choice.mk "c" none ["a", "b"] (some "a")) = true ∧
    isOkE (Choice.mk "c" none ["a", "b"] (some "c")) = false := by
  refine ⟨?_, ?_, ?_, rfl, rfl⟩
  · intro n lbl init
    refine not_isOk_of_iff (choice_mk_isOk_iff n lbl [] init) ?_
    rintro ⟨h, -⟩
    exact h rfl
  · intro n lbl opts init hmem
    refine not_isOk_of_iff (choice_mk_isOk_iff n lbl opts init) ?_
    rintro ⟨-, -, hne, -⟩
    exact hne "" hmem rfl
  · intro n lbl opts i hi
    refine not_isOk_of_iff (choice_mk_isOk_iff n lbl opts (some i)) ?_
    rintro ⟨-, hinit, -⟩
    exact hi (hinit i rfl)

/-- **C6** witness: the three rejection branches at concrete inputs. -/
theorem C6_witness :
    isOkE (Choice.mk "c" none [] (some "a")) = false ∧
    isOkE (Choice.mk "c" none ["a", ""] none) = false ∧
    isOkE (Choice.mk "c" none ["a", "b"] (some "z")) = false :=
  ⟨C6_choice_construction.1 "c" none (some "a"),
   C6_choice_construction.2.1 "c" none ["a", ""] none (by decide),
   C6_choice_construction.2.2.1 "c" none ["a", "b"] "z" (by decide)⟩

/-- **C7**: the value validator of a `Choice` field accepts a submitted
string exactly when it is one of the field's options, returning it
unchanged, and rejects every other string; the options captured by the
validator closure are exactly the ones the field was constructed with. -/
theorem C7_choice_validator :
    (∀ opts x, (Choice.validator opts x = .ok x ↔ x ∈ opts) ∧
               (x ∉ opts → isOkE (Choice.validator opts x) = false)) ∧
    (∀ n lbl opts init p, Choice.mk n lbl opts init = .ok p → p.options = opts) := by
  constructor
  · intro opts x
    constructor
    · unfold Choice.validator
      by_cases h : opts.contains x = true
      · simp only [if_pos h]
        exact iff_of_true trivial (List.elem_iff.mp h)
      · simp only [if_neg h]
        refine iff_of_false (by simp) fun hm => h (List.elem_iff.mpr hm)
    · intro hx
      unfold Choice.validator
      have h : opts.contains x = false := by
        cases hc : opts.contains x
        · rfl
        · exact absurd (List.elem_iff.mp hc) hx
      rw [h]
      rfl
  · intro n lbl opts init p h
    unfold Choice.mk at h
    split at h
    · cases h
    · split at h
      · cases h
      · split at h
        · cases h
        · split at h
          · cases h
          · cases h
            rfl

/-- **C7** witness: with options `["a","b"]`, the validator accepts `"b"`
unchanged and rejects `"z"`, and a field constructed with those options
captures them. -/
theorem C7_witness :
    Choice.validator ["a", "b"] "b" = .ok "b" ∧
    isOkE (Choice.validator ["a", "b"] "z") = false ∧
    (Choice.mk "c" none ["a", "b"] (some "a")).map ChoiceP.options
      = .ok ["a", "b"] := by
  refine ⟨(C7_choice_validator.1 ["a", "b"] "b").1.mpr (by decide),
          (C7_choice_validator.1 ["a", "b"] "z").2 (by decide), ?_⟩
  cases h : Choice.mk "c" none ["a", "b"] (some "a") with
  | error e =>
    have h2 : isOkE (Choice.mk "c" none ["a", "b"] (some "a")) = true := rfl
    rw [h] at h2
    cases h2
  | ok p =>
    show Except.ok p.options = .ok ["a", "b"]
    rw [C7_choice_validator.2 "c" none ["a", "b"] (some "a") p h]

/-- **C8**: every constructed `File` field has `cacheable = False` no matter
the constructor arguments, while every other variant's constructed instances
have the inherited default `cacheable = True`. -/
theorem C8_file_not_cacheable :
    (∀ n lbl i a p, File.mk n lbl i a = .ok p → p.cacheable = false) ∧
    (∀ n lbl i p, Switch.mk n lbl i = .ok p → p.cacheable = true) ∧
    (∀ n lbl i a p, TextBox.mk n lbl i a = .ok p → p.cacheable = true) ∧
    (∀ n lbl i p, NumberBox.mk n lbl i = .ok p → p.cacheable = true) ∧
    (∀ n lbl i mn mx st p, Range.mk n lbl i mn mx st = .ok p → p.cacheable = true) ∧
    (∀ n lbl opts init p, Choice.mk n lbl opts init = .ok p → p.cacheable = true) ∧
    (∀ n lbl i opts a p, MultiChoice.mk n lbl i opts a = .ok p → p.cacheable = true) ∧
    (∀ n lbl i a p, Tags.mk n lbl i a = .ok p → p.cacheable = true) ∧
    (∀ n lbl i p, Date.mk n lbl i = .ok p → p.cacheable = true) ∧
    (∀ n lbl i p, Time.mk n lbl i = .ok p → p.cacheable = true) ∧
    (∀ n lbl i p, DateTime.mk n lbl i = .ok p → p.cacheable = true) := by
  refine ⟨?_, ?_, ?_, ?_, ?_, ?_, ?_, ?_, ?_, ?_, ?_⟩
  · intro n lbl i a p h
    unfold File.mk at h
    split at h
    · cases h
    · cases h
      rfl
  · intro n lbl i p h
    unfold Switch.mk at h
    split at h
    · cases h
    · cases h
      rfl
  · intro n lbl i a p h
    unfold TextBox.mk at h
    split at h
    · cases h
    · cases h
      rfl
  · intro n lbl i p h
    unfold NumberBox.mk at h
    split at h
    · cases h
    · cases h
      rfl
  · intro n lbl i mn mx st p h
    unfold Range.mk at h
    split at h
    · cases h
    · split at h
      · cases h
      · cases h
        rfl
  · intro n lbl opts init p h
    unfold Choice.mk at h
    split at h
    · cases h
    · split at h
      · cases h
      · split at h
        · cases h
        · split at h
          · cases h
          · cases h
            rfl
  · intro n lbl i opts a p h
    unfold MultiChoice.mk at h
    split at h
    · cases h
    · split at h
      · cases h
      · split at h
        · cases h
        · split at h
          · cases h
          · cases h
            rfl
  · intro n lbl i a p h
    unfold Tags.mk at h
    split at h
    · cases h
    · cases h
      rfl
  · intro n lbl i p h
    unfold Date.mk at h
    split at h
    · cases h
    · cases h
      rfl
  · intro n lbl i p h
    unfold Time.mk at h
    split at h
    · cases h
    · cases h
      rfl
  · intro n lbl i p h
    unfold DateTime.mk at h
    split at h
    · cases h
    · cases h
      rfl

/-- **C8** witness: a concretely constructed `File` is not cacheable and a
concretely constructed `Switch` is. -/
theorem C8_witness :
    (File.mk "u" none none false).map FileP.cacheable = .ok false ∧
    (Switch.mk "s" none false).map SwitchP.cacheable = .ok true := by
  constructor
  · cases h : File.mk "u" none none false with
    | error e =>
      have h2 : isOkE (File.mk "u" none none false) = true := rfl
      rw [h] at h2
      cases h2
    | ok p =>
      show Except.ok p.cacheable = .ok false
      rw [C8_file_not_cacheable.1 "u" none none false p h]
  · cases h : Switch.mk "s" none false with
    | error e =>
      have h2 : isOkE (Switch.mk "s" none false) = true := rfl
      rw [h] at h2
      cases h2
    | ok p =>
      show Except.ok p.cacheable = .ok true
      rw [C8_file_not_cacheable.2.1 "s" none false p h]

/-- **C4**: for every field built with a present initial value `I`, the
markup carries an `initial` attribute whose (decoded) value is the textual
form of `_proc_initial(I)`: in general the stringified processed initial,
for `Date`/`Time`/`DateTime` the canonical ISO-8601 string `I.isoformat()`,
and for `MultiChoice`/`Tags` the JSON serialisation of the list. -/
theorem C4_markup_initial_roundtrip :
    (∀ n lbl v a, (mk_attribs (Parameter.mkAttribsDict n lbl (some v) a)).lookup "initial"
        = some v.pyStr) ∧
    (∀ n lbl d p, Date.mk n lbl (some d) = .ok p →
        p.toXml.attrs.lookup "initial" = some d.isoformat) ∧
    (∀ n lbl x p, Time.mk n lbl (some x) = .ok p →
        p.toXml.attrs.lookup "initial" = some x.isoformat) ∧
    (∀ n lbl x p, DateTime.mk n lbl (some x) = .ok p →
        p.toXml.attrs.lookup "initial" = some x.isoformat) ∧
    (∀ n lbl i opts a p, MultiChoice.mk n lbl i opts a = .ok p →
        p.toXml.attrs.lookup "initial" = some (jsonDumps i)) ∧
    (∀ n lbl i a p, Tags.mk n lbl i a = .ok p →
        p.toXml.attrs.lookup "initial" = some (jsonDumps i)) := by
  refine ⟨?_, ?_, ?_, ?_, ?_, ?_⟩
  · exact fun n lbl v a => lookup_initial n lbl v a
  · intro n lbl d p h
    unfold Date.mk at h
    split at h
    · cases h
    · cases h
      rename_i attribs heq
      show (mk_attribs attribs).lookup "initial" = some d.isoformat
      rw [Parameter.init_ok_eq heq]
      exact lookup_initial n lbl (.str d.isoformat) false
  · intro n lbl x p h
    unfold Time.mk at h
    split at h
    · cases h
    · cases h
      rename_i attribs heq
      show (mk_attribs attribs).lookup "initial" = some x.isoformat
      rw [Parameter.init_ok_eq heq]
      exact lookup_initial n lbl (.str x.isoformat) false
  · intro n lbl x p h
    unfold DateTime.mk at h
    split at h
    · cases h
    · cases h
      rename_i attribs heq
      show (mk_attribs attribs).lookup "initial" = some x.isoformat
      rw [Parameter.init_ok_eq heq]
      exact lookup_initial n lbl (.str x.isoformat) false
  · intro n lbl i opts a p h
    unfold MultiChoice.mk at h
    split at h
    · cases h
    · split at h
      · cases h
      · split at h
        · cases h
        · split at h
          · cases h
          · cases h
            rename_i attribs heq
            show (mk_attribs (attribs ++ [("choices", some (.str (jsonDumps opts)))])).lookup "initial"
              = some (jsonDumps i)
            rw [Parameter.init_ok_eq heq]
            exact lookup_initial_append n lbl (.str (jsonDumps i)) a
              [("choices", some (.str (jsonDumps opts)))]
  · intro n lbl i a p h
    unfold Tags.mk at h
    split at h
    · cases h
    · cases h
      rename_i attribs heq
      show (mk_attribs attribs).lookup "initial" = some (jsonDumps i)
      rw [Parameter.init_ok_eq heq]
      exact lookup_initial n lbl (.str (jsonDumps i)) a

/-- **C4** witness: a `Date` field's markup carries the ISO initial and a
`MultiChoice` field's markup carries the JSON-serialised initial list, at
concrete inputs. -/
theorem C4_witness :
    (Date.mk "d" none (some ⟨2023, 5, 7⟩)).map
        (fun p => p.toXml.attrs.lookup "initial") = .ok (some "2023-05-07") ∧
    (MultiChoice.mk "m" none ["a"] ["a", "b"] false).map
        (fun p => p.toXml.attrs.lookup "initial") = .ok (some "[\"a\"]") := by
  constructor
  · cases h : Date.mk "d" none (some ⟨2023, 5, 7⟩) with
    | error e =>
      have h2 : isOkE (Date.mk "d" none (some ⟨2023, 5, 7⟩)) = true := rfl
      rw [h] at h2
      cases h2
    | ok p =>
      show Except.ok (p.toXml.attrs.lookup "initial") = .ok (some "2023-05-07")
      rw [C4_markup_initial_roundtrip.2.1 "d" none ⟨2023, 5, 7⟩ p h]
      rfl
  · cases h : MultiChoice.mk "m" none ["a"] ["a", "b"] false with
    | error e =>
      have h2 : isOkE (MultiChoice.mk "m" none ["a"] ["a", "b"] false) = true := rfl
      rw [h] at h2
      cases h2
    | ok p =>
      show Except.ok (p.toXml.attrs.lookup "initial") = .ok (some "[\"a\"]")
      rw [C4_markup_initial_roundtrip.2.2.2.2.1 "m" none ["a"] ["a", "b"] false p h]
      rfl

/-- **C2**: the `File` value validator accepts a path exactly when it exists
and designates a regular file (so it rejects everything else), and a decode
failure on a malformed base64 payload propagates as an error value — a
`binascii.Error`, a `ValueError` subclass reported by the validation layer
as a validation error — both through `B64Path.validate` alone and through
the whole decode-then-check pipeline, never as an unhandled crash
(every function involved is total). -/
theorem C2_file_validation :
    (∀ fs x, (File.validator fs x = .ok x ↔
        (fs.isFile x = true ∧ fs.pathExists x = true)) ∧
      ((fs.isFile x = false ∨ fs.pathExists x = false) →
        isOkE (File.validator fs x) = false)) ∧
    (∀ v fs e, b64decode v = .error e → B64Path.validate v fs = .error e) ∧
    (∀ v fs e, b64decode v = .error e → File.validateValue v fs = .error e) := by
  refine ⟨?_, ?_, ?_⟩
  · intro fs x
    constructor
    · unfold File.validator
      by_cases h : (fs.isFile x && fs.pathExists x) = true
      · simp only [if_pos h]
        exact iff_of_true trivial (by simpa [Bool.and_eq_true] using h)
      · simp only [if_neg h]
        refine iff_of_false (by simp) fun hm => h (by simp [hm.1, hm.2])
    · intro hor
      unfold File.validator
      have h : (fs.isFile x && fs.pathExists x) = false := by
        rcases hor with h1 | h1 <;> simp [h1]
      rw [h]
      rfl
  · intro v fs e h
    unfold B64Path.validate
    rw [h]
  · intro v fs e h
    unfold File.validateValue B64Path.validate
    rw [h]

/-- **C2** witness: on a one-file filesystem the validator accepts the
regular file, rejects a directory path and a missing path; the malformed
payload `"a"` (one data character) makes the decode — and the whole
pipeline — fail with `binascii.Error`'s message rather than succeed. -/
theorem C2_witness :
    File.validator ⟨[("f", .regular [77]), ("d", .directory)], 0⟩ "f" = .ok "f" ∧
    isOkE (File.validator ⟨[("f", .regular [77]), ("d", .directory)], 0⟩ "d") = false ∧
    isOkE (File.validator ⟨[("f", .regular [77]), ("d", .directory)], 0⟩ "g") = false ∧
    File.validateValue "a" ⟨[], 0⟩ =
      .error "Invalid base64-encoded string: number of data characters cannot be 1 more than a multiple of 4" :=
  ⟨(C2_file_validation.1 ⟨[("f", .regular [77]), ("d", .directory)], 0⟩ "f").1.mpr
     ⟨by decide, by decide⟩,
   (C2_file_validation.1 ⟨[("f", .regular [77]), ("d", .directory)], 0⟩ "d").2
     (by decide),
   (C2_file_validation.1 ⟨[("f", .regular [77]), ("d", .directory)], 0⟩ "g").2
     (by decide),
   C2_file_validation.2.2 "a" ⟨[], 0⟩ _ rfl⟩

end Datapane
